import Mathlib

/-!
Verification of the URSA benchmark drivers
(`cliqueK_starter.py` and `sat_starter.py`).

Python strings are modelled as `List Char` (`PyStr`); each Python string
primitive used by the drivers (`in`, `strip`, `split`, `lower`,
`startswith`, `int(...)`, f-string formatting) is given an executable
Lean counterpart.  Report files are modelled as lists of lines (without
the trailing newline characters), matching `readlines` / `write(... +
"\n")` in the source.
-/

set_option maxRecDepth 10000

/-! ## Definitions -/

/-- A Python string, modelled as its list of characters. -/
abbrev PyStr := List Char


/-- The character list of a Lean string literal. -/
def strLit (s : String) : PyStr := s.data


/-- Python substring test `needle in hay` (contiguous substring). -/
def pyIn (needle : PyStr) : PyStr → Bool
  | [] => needle.isEmpty
  | c :: rest => needle.isPrefixOf (c :: rest) || pyIn needle rest


/-- Whitespace characters recognised by `str.strip` / `str.split` /
regex `\s` (the ones that can occur in data handled by the drivers). -/
def isSpaceChar (c : Char) : Bool :=
  c = ' ' || c = '\t' || c = '\n' || c = '\r'


/-- ASCII decimal digit test. -/
def isDig (c : Char) : Bool :=
  c = '0' || c = '1' || c = '2' || c = '3' || c = '4' ||
  c = '5' || c = '6' || c = '7' || c = '8' || c = '9'


/-- Python `str.strip()`. -/
def pyStrip (s : PyStr) : PyStr :=
  ((s.dropWhile isSpaceChar).reverse.dropWhile isSpaceChar).reverse


/-- Python `str.lower()`. -/
def pyLower (s : PyStr) : PyStr := s.map Char.toLower


/-- Helper for `pySplitChar` (current field accumulated in reverse). -/
def splitCharGo (sep : Char) : PyStr → PyStr → List PyStr
  | [], cur => [cur.reverse]
  | c :: rest, cur =>
    if c = sep then cur.reverse :: splitCharGo sep rest []
    else splitCharGo sep rest (c :: cur)


/-- Python `str.split(sep)` for a one-character separator
(keeps empty fields, as Python does). -/
def pySplitChar (sep : Char) (s : PyStr) : List PyStr := splitCharGo sep s []


/-- Helper for `pySplitWs`. -/
def splitWsGo : PyStr → PyStr → List PyStr
  | [], cur => if cur = [] then [] else [cur.reverse]
  | c :: rest, cur =>
    if isSpaceChar c then
      if cur = [] then splitWsGo rest [] else cur.reverse :: splitWsGo rest []
    else splitWsGo rest (c :: cur)


/-- Python `str.split()` (split on whitespace runs, dropping empties). -/
def pySplitWs (s : PyStr) : List PyStr := splitWsGo s []


/-- The remainder of a string after its first `':'`; `none` when the
string has no colon.  Models `line.split(':', 1)[1]` (the `none` case
corresponds to the `IndexError` the callers catch). -/
def afterFirstColon : PyStr → Option PyStr
  | [] => none
  | c :: rest => if c = ':' then some rest else afterFirstColon rest


/-- Numeric value of an ASCII digit character. -/
def digitVal (c : Char) : Nat := c.toNat - 48


/-- Decimal value of a digit string. -/
def digitsVal (l : PyStr) : Nat := l.foldl (fun a c => 10 * a + digitVal c) 0


/-- Parse a nonempty all-digit string; `none` otherwise. -/
def parseDigits (l : PyStr) : Option Nat :=
  if l ≠ [] ∧ l.all isDig then some (digitsVal l) else none


/-- Python `int(s)`: strip whitespace, optional sign, decimal digits;
`none` models the `ValueError` the callers catch. -/
def pyInt? (s : PyStr) : Option Int :=
  match pyStrip s with
  | '-' :: rest => (parseDigits rest).map (fun n => -(n : Int))
  | '+' :: rest => (parseDigits rest).map (fun n => (n : Int))
  | rest => (parseDigits rest).map (fun n => (n : Int))


/-- Fuel-driven decimal rendering (most significant digit first);
structural recursion so that it reduces definitionally. -/
def natDigitsGo : Nat → Nat → PyStr → PyStr
  | 0, n, acc => Nat.digitChar (n % 10) :: acc
  | fuel + 1, n, acc =>
    if n < 10 then Nat.digitChar n :: acc
    else natDigitsGo fuel (n / 10) (Nat.digitChar (n % 10) :: acc)


/-- Decimal digit string of a natural number (Python f-string decimal
rendering). -/
def natRepr (n : Nat) : PyStr := natDigitsGo n n []


/-- Reference version of `natRepr` by well-founded recursion; used only
in proofs. -/
def digitsOf (n : Nat) : PyStr :=
  if n < 10 then [Nat.digitChar n]
  else digitsOf (n / 10) ++ [Nat.digitChar (n % 10)]
termination_by n
decreasing_by exact Nat.div_lt_self (by omega) (by omega)


/-- Python f-string decimal rendering of an `int`. -/
def intRepr (i : Int) : PyStr :=
  if i < 0 then '-' :: natRepr i.natAbs else natRepr i.natAbs


/-- Python left-justified f-string field: pad with spaces to width `w`. -/
def padRight (s : PyStr) (w : Nat) : PyStr :=
  s ++ List.replicate (w - s.length) ' '


/-- `sep.join(parts)`. -/
def joinSep (sep : PyStr) : List PyStr → PyStr
  | [] => []
  | [x] => x
  | x :: y :: rest => x ++ sep ++ joinSep sep (y :: rest)


/-- Python fixed-point f-string rendering with six decimals, for a
nonnegative time held as a whole number of microseconds (the drivers
only ever format nonnegative elapsed times). -/
def fmtFixed6 (micros : Nat) : PyStr :=
  let frac := natRepr (micros % 1000000)
  natRepr (micros / 1000000) ++ '.' :: (List.replicate (6 - frac.length) '0' ++ frac)


/-- Python `set.add` on a list kept without duplicates (insertion order,
which is irrelevant to the set-valued claims). -/
def pyInsert (s : List PyStr) (x : PyStr) : List PyStr :=
  if s.contains x then s else s ++ [x]


-- ### Basic facts about digits and rendering

/-- The ten digit characters. -/
def digitChars : PyStr := strLit "0123456789"


/-- Digit characters together with the minus sign: every character an
`intRepr` can produce. -/
def negDigitChars : PyStr := strLit "-0123456789"


-- ### Output classification (`is_sat_output` / `is_unsat_output`)
-- Identical in `cliqueK_starter.py` (lines 11-26) and `sat_starter.py`
-- (lines 11-32).

/-- Word character for the regex `\b` boundary. -/
def isWordChar (c : Char) : Bool :=
  c.isAlpha || isDig c || c = '_'


/-- Does the regex search for word-bounded `0 solutions` match at the
start of `s`, given the character just before this position (if any)? -/
def zeroSolAt (prev : Option Char) (s : PyStr) : Bool :=
  (strLit "0 solutions").isPrefixOf s
    && (match prev with | none => true | some p => ¬ isWordChar p)
    && (match s.drop (strLit "0 solutions").length with
        | [] => true
        | c :: _ => ¬ isWordChar c)


/-- The regex search for word-bounded `0 solutions` over `s` (scan
over all positions). -/
def searchZeroSolutions : Option Char → PyStr → Bool
  | prev, [] => zeroSolAt prev []
  | prev, c :: rest => zeroSolAt prev (c :: rest) || searchZeroSolutions (some c) rest


/-- Does the regex search for a bracketed zero-count marker (opening
bracket, `Number of solutions:`, optional whitespace, `0`, closing
bracket) match at the start of `s`? -/
def numSolZeroAt (s : PyStr) : Bool :=
  (strLit "[Number of solutions:").isPrefixOf s
    && (strLit "0]").isPrefixOf
        ((s.drop (strLit "[Number of solutions:").length).dropWhile isSpaceChar)


/-- The regex search for the bracketed zero-count marker over `s`. -/
def searchNumSolZero : PyStr → Bool
  | [] => false
  | c :: rest => numSolZeroAt (c :: rest) || searchNumSolZero rest


/-- `is_sat_output(stdout)`: positive-result classification. -/
def is_sat_output (stdout : PyStr) : Bool :=
  if pyIn (strLit "--> Solution") stdout then true
  else if pyIn (strLit "[Solving time:") stdout && pyIn (strLit "[Formula size:") stdout then
    if ¬ pyIn (strLit "0 solutions") stdout && ¬ pyIn (strLit "No solutions") stdout then
      true
    else false
  else false


/-- `is_unsat_output(stdout)`: negative-result classification. -/
def is_unsat_output (stdout : PyStr) : Bool :=
  if pyIn (strLit "No solutions found") stdout || searchZeroSolutions none stdout then true
  else if searchNumSolZero stdout then true
  else false


-- ### Process runners
-- The solver executables are external collaborators; one invocation is
-- abstracted by the three observable ways `subprocess` can behave for
-- the drivers: normal completion (with stdout, exit code and measured
-- wall time), `TimeoutExpired`, or an exception when launching /
-- communicating (missing executable, permission error, ...).

/-- Observable behaviour of one external solver process.  Wall times are
rationals (seconds). -/
inductive ProcBehavior : Type
  | completes (stdout : PyStr) (code : Int) (wall : ℚ)
  | timesOut (wall : ℚ)
  | launchFail


/-- `URSACliqueBenchmark.run_ursa` (lines 413-460): returns
`(status, elapsed seconds, clique size)`.  `csize` abstracts the
`re.search`-based clique-size extraction applied to stdout on a
zero-exit run (lines 437-447). -/
def cqRunUrsa (timeoutCfg : ℚ) (csize : PyStr → Nat) : ProcBehavior → PyStr × ℚ × Nat
  | .timesOut _ => (strLit "TIMEOUT", timeoutCfg, 0)
  | .completes stdout code wall =>
    if code = 0 then
      if is_sat_output stdout || csize stdout > 0 then (strLit "FOUND", wall, csize stdout)
      else if is_unsat_output stdout then (strLit "NOT_FOUND", wall, 0)
      else (strLit "UNKNOWN", wall, 0)
    else (strLit "ERROR", wall, 0)
  | .launchFail => (strLit "ERROR", 0, 0)


/-- `URSACliqueBenchmark.run_cliquer` (lines 462-499); `csize` abstracts
the `size=X` extraction from stdout. -/
def cqRunCliquer (timeoutCfg : ℚ) (csize : PyStr → Nat) : ProcBehavior → PyStr × ℚ × Nat
  | .timesOut _ => (strLit "TIMEOUT", timeoutCfg, 0)
  | .completes stdout code wall =>
    if code = 0 && csize stdout > 0 then (strLit "FOUND", wall, csize stdout)
    else if code = 0 && csize stdout = 0 then (strLit "NOT_FOUND", wall, 0)
    else (strLit "ERROR", wall, 0)
  | .launchFail => (strLit "ERROR", 0, 0)


/-- `URSASATBenchmark.run_ursa` (lines 422-460): returns
`(status, elapsed seconds)`. -/
def satRunUrsa (timeoutCfg : ℚ) : ProcBehavior → PyStr × ℚ
  | .timesOut _ => (strLit "TIMEOUT", timeoutCfg)
  | .completes stdout code wall =>
    if code = 0 then
      if is_sat_output stdout then (strLit "SAT", wall)
      else if is_unsat_output stdout then (strLit "UNSAT", wall)
      else (strLit "UNKNOWN", wall)
    else (strLit "ERROR", wall)
  | .launchFail => (strLit "ERROR", 0)


/-- `URSASATBenchmark.run_minisat` (lines 462-493): exit-code-only
classification (10 = SAT, 20 = UNSAT). -/
def satRunMinisat (timeoutCfg : ℚ) : ProcBehavior → PyStr × ℚ
  | .timesOut _ => (strLit "TIMEOUT", timeoutCfg)
  | .completes _ code wall =>
    if code = 10 then (strLit "SAT", wall)
    else if code = 20 then (strLit "UNSAT", wall)
    else (strLit "ERROR", wall)
  | .launchFail => (strLit "ERROR", 0)


-- ### Instance parsers

/-- Parser state / result for `parse_dimacs_graph`:
`(num_vertices, num_edges, edges)`. -/
structure GSt : Type where
  nv : Int
  ne : Int
  edges : List (Int × Int)
deriving DecidableEq, Repr


/-- `num_vertices = int(parts[2]); num_edges = int(parts[3])` (resp.
`num_vars` / `num_clauses` for the CNF parser): `none` models the
`IndexError` / `ValueError` escaping, in the evaluation order of the source. -/
def readHeaderCounts (parts : List PyStr) : Option (Int × Int) :=
  match parts.get? 2 with
  | none => none
  | some t2 =>
    match pyInt? t2 with
    | none => none
    | some a =>
      match parts.get? 3 with
      | none => none
      | some t3 => (pyInt? t3).map (fun b => (a, b))


/-- `v1 = int(parts[1]); v2 = int(parts[2])` of an edge line. -/
def readEdgeInts (parts : List PyStr) : Option (Int × Int) :=
  match parts.get? 1 with
  | none => none
  | some t1 =>
    match pyInt? t1 with
    | none => none
    | some v1 =>
      match parts.get? 2 with
      | none => none
      | some t2 => (pyInt? t2).map (fun v2 => (v1, v2))


/-- One loop iteration of `URSACliqueBenchmark.parse_dimacs_graph`
(lines 349-369) on the already-stripped line.  `.error ()` models an
uncaught `ValueError` / `IndexError` escaping from `int(...)` /
`parts[...]`. -/
def gLineCore (st : GSt) (line : PyStr) : Except Unit GSt :=
  if line = [] || (strLit "c").isPrefixOf line then .ok st
  else if (strLit "p edge").isPrefixOf line || (strLit "p col").isPrefixOf line then
    match readHeaderCounts (pySplitWs line) with
    | none => .error ()
    | some nvne => .ok { st with nv := nvne.1, ne := nvne.2 }
  else if (strLit "e ").isPrefixOf line then
    let parts := pySplitWs line
    if parts.length ≥ 3 then
      match readEdgeInts parts with
      | none => .error ()
      | some e => .ok { st with edges := st.edges ++ [e] }
    else .ok st
  else .ok st


/-- One loop iteration of `parse_dimacs_graph`, including the
`line.strip()` at the top of the loop body. -/
def gLineStep (st : GSt) (raw : PyStr) : Except Unit GSt :=
  gLineCore st (pyStrip raw)


/-- The line loop of `parse_dimacs_graph`. -/
def gRun : List PyStr → GSt → Except Unit GSt
  | [], st => .ok st
  | l :: ls, st =>
    match gLineStep st l with
    | Except.error e => Except.error e
    | Except.ok st2 => gRun ls st2


/-- `URSACliqueBenchmark.parse_dimacs_graph` (lines 342-371). -/
def parse_dimacs_graph (content : PyStr) : Except Unit GSt :=
  gRun (pySplitChar '\n' (pyStrip content)) ⟨0, 0, []⟩


/-- Parser state / result for `parse_dimacs`:
`(num_vars, num_clauses, clauses)`. -/
structure CSt : Type where
  nv : Int
  nc : Int
  clauses : List (List Int)
deriving DecidableEq, Repr


/-- A left-to-right fallible map (a Python comprehension over a
fallible body: the first failure aborts the whole construction). -/
def optMapM {α β : Type} (f : α → Option β) : List α → Option (List β)
  | [] => some []
  | t :: ts =>
    match f t with
    | none => none
    | some v =>
      match optMapM f ts with
      | none => none
      | some vs => some (v :: vs)


/-- The clause construction of `parse_dimacs` (line 371):
`[int(x) for x in line.split() if x != '0']`. -/
def parseClauseLiterals (toks : List PyStr) : Option (List Int) :=
  optMapM pyInt? (toks.filter (fun t => ¬ t = strLit "0"))


/-- One loop iteration of `URSASATBenchmark.parse_dimacs`
(lines 355-373) on the already-stripped line. -/
def sLineCore (st : CSt) (line : PyStr) : Except Unit CSt :=
  if line = [] || (strLit "c").isPrefixOf line || (strLit "%").isPrefixOf line then .ok st
  else if (strLit "p cnf").isPrefixOf line then
    match readHeaderCounts (pySplitWs line) with
    | none => .error ()
    | some nvnc => .ok { st with nv := nvnc.1, nc := nvnc.2 }
  else if ¬ (strLit "p").isPrefixOf line then
    match parseClauseLiterals (pySplitWs line) with
    | none => .error ()
    | some lits =>
      .ok (if lits ≠ [] then { st with clauses := st.clauses ++ [lits] } else st)
  else .ok st


/-- One loop iteration of `parse_dimacs`, including the `line.strip()`
at the top of the loop body. -/
def sLineStep (st : CSt) (raw : PyStr) : Except Unit CSt :=
  sLineCore st (pyStrip raw)


/-- The line loop of `parse_dimacs`. -/
def sRun : List PyStr → CSt → Except Unit CSt
  | [], st => .ok st
  | l :: ls, st =>
    match sLineStep st l with
    | Except.error e => Except.error e
    | Except.ok st2 => sRun ls st2


/-- `URSASATBenchmark.parse_dimacs` (lines 348-375). -/
def parse_dimacs (content : PyStr) : Except Unit CSt :=
  sRun (pySplitChar '\n' (pyStrip content)) ⟨0, 0, []⟩


-- ### Code generation
-- Generated URS programs are modelled as their lists of lines (the
-- source builds one string with embedded newlines; the two views are in
-- bijection since no emitted line contains a newline).  A template is
-- likewise passed as its list of lines.

/-- The line `bEdge[a][b] = true;` emitted per edge direction. -/
def trueAssignLine (a b : Int) : PyStr :=
  strLit "bEdge[" ++ intRepr a ++ strLit "][" ++ intRepr b ++ strLit "] = true;"


/-- Fixed preamble of `URSACliqueBenchmark.generate_urs_code`
(lines 376-386): size declaration and the all-false initialization
loop over every ordered pair below `nN`. -/
def cqPreamble (nv : Int) : List PyStr :=
  [strLit "nN = " ++ intRepr nv ++ strLit ";",
   [],
   strLit "// Initialize adjacency matrix",
   strLit "for(i=0; i<nN; i++) \x7b",
   strLit "    for(j=0; j<nN; j++) \x7b",
   strLit "        bEdge[i][j] = false;",
   strLit "    \x7d",
   strLit "\x7d",
   [],
   strLit "// Add edges (convert from 1-indexed to 0-indexed)"]


/-- The two 0-indexed assignment targets per undirected edge, in
emission order (lines 389-393). -/
def cqPairs (edges : List (Int × Int)) : List (Int × Int) :=
  edges.foldr (fun e acc => (e.1 - 1, e.2 - 1) :: (e.2 - 1, e.1 - 1) :: acc) []


/-- The per-edge assignment lines, in emission order: one
`bEdge[_][_] = true;` line per element of `cqPairs`. -/
def cqAssignLines (edges : List (Int × Int)) : List PyStr :=
  (cqPairs edges).map (fun p => trueAssignLine p.1 p.2)


/-- `URSACliqueBenchmark.generate_urs_code` (lines 373-397), as a list
of lines; the template is appended after a separating blank line. -/
def cqGenerateLines (nv : Int) (edges : List (Int × Int)) (tmpl : List PyStr) : List PyStr :=
  cqPreamble nv ++ cqAssignLines edges ++ [[]] ++ tmpl


/-- The line `bC[c][s] = true;` emitted per literal occurrence. -/
def bcLine (c : Nat) (s : Int) : PyStr :=
  strLit "bC[" ++ natRepr c ++ strLit "][" ++ intRepr s ++ strLit "] = true;"


/-- Fixed preamble of `URSASATBenchmark.generate_urs_code`
(lines 380-389). -/
def satPreamble (nv nc : Int) : List PyStr :=
  [strLit "nN = " ++ intRepr nv ++ strLit ";",
   strLit "nClauses = " ++ intRepr nc ++ strLit ";",
   [],
   strLit "for(ni=0; ni<nClauses; ni++) \x7b",
   strLit "    for(nj=0; nj<2*nN; nj++) \x7b",
   strLit "        bC[ni][nj] = false;",
   strLit "    \x7d",
   strLit "\x7d",
   []]


/-- The slot a literal occupies (lines 394-401): positive literal `v`
goes to `2*(v-1)`, negative literal to `2*(|v|-1)+1`. -/
def slotOfLit (lit : Int) : Int :=
  if lit > 0 then 2 * (lit - 1) else 2 * ((lit.natAbs : Int) - 1) + 1


/-- The `(clause index, slot)` assignment targets, in emission order
(`for clause_idx, clause in enumerate(clauses): for literal in clause`). -/
def satSlots (clauses : List (List Int)) : List (Nat × Int) :=
  (clauses.enum).foldr (fun p acc =>
    p.2.map (fun lit => (p.1, slotOfLit lit)) ++ acc) []


/-- The per-literal assignment lines, in emission order: one
`bC[_][_] = true;` line per element of `satSlots`. -/
def satAssignLines (clauses : List (List Int)) : List PyStr :=
  (satSlots clauses).map (fun q => bcLine q.1 q.2)


/-- `URSASATBenchmark.generate_urs_code` (lines 377-405), as a list of
lines. -/
def satGenerateLines (nv nc : Int) (clauses : List (List Int)) (tmpl : List PyStr) :
    List PyStr :=
  satPreamble nv nc ++ satAssignLines clauses ++ [[]] ++ tmpl


/-- Semantics of one emitted `... = true;` statement on a boolean store
indexed by `α`. -/
def setTrue {α : Type} [DecidableEq α] (m : α → Bool) (x : α) : α → Bool :=
  fun y => if y = x then true else m y


/-- Executing a list of `... = true;` statements in order. -/
def runTrueAssigns {α : Type} [DecidableEq α] (ps : List α) (m : α → Bool) : α → Bool :=
  ps.foldl setTrue m


-- ### Clique benchmark statistics (`cliqueK_starter.py`)

/-- Per-solver counters of the clique driver.  The source keeps them in
dicts; the Cliquer dict has no `not_found` and no `unknown` key — its
`notFound` field here stays `0` (the code never touches it). -/
structure CqSolver : Type where
  found : Int
  notFound : Int
  timeoutCnt : Int
  errorCnt : Int
deriving DecidableEq, Repr


/-- The `stats` dictionary of the clique driver
(`_initialize_empty_stats`, lines 220-227). -/
structure CqStats : Type where
  total : Int
  ursa : CqSolver
  cliquer : CqSolver
  reduction : CqSolver
deriving DecidableEq, Repr


/-- `_initialize_empty_stats` (clique driver). -/
def cqEmptyStats : CqStats := ⟨0, ⟨0, 0, 0, 0⟩, ⟨0, 0, 0, 0⟩, ⟨0, 0, 0, 0⟩⟩


/-- The URSA branch of `update_stats` in the clique driver
(lines 104-113): `found` / `not_found` / `timeout` are counted in their
own buckets, everything else falls into `error`.  The Reduction branch
(lines 124-134) is identical. -/
def cqBumpUrsa (s : CqSolver) (status : PyStr) : CqSolver :=
  let k := pyLower status
  if k = strLit "found" then { s with found := s.found + 1 }
  else if k = strLit "not_found" then { s with notFound := s.notFound + 1 }
  else if k = strLit "timeout" then { s with timeoutCnt := s.timeoutCnt + 1 }
  else { s with errorCnt := s.errorCnt + 1 }


/-- The Cliquer branch of `update_stats` (lines 115-122): only `found`
and `timeout` have buckets; everything else — `not_found` included —
falls into `error`. -/
def cqBumpCliquer (s : CqSolver) (status : PyStr) : CqSolver :=
  let k := pyLower status
  if k = strLit "found" then { s with found := s.found + 1 }
  else if k = strLit "timeout" then { s with timeoutCnt := s.timeoutCnt + 1 }
  else { s with errorCnt := s.errorCnt + 1 }


/-- `update_stats` of `cliqueK_starter.py` (lines 100-134), applied to
the three status strings of one result.  The source mutates the three
independent sub-dicts in sequence; the net effect is this record. -/
def cqUpdateStats (stats : CqStats) (ursaStatus cliquerStatus reductionStatus : PyStr)
    (hasRed : Bool) : CqStats :=
  { total := stats.total + 1
    ursa := cqBumpUrsa stats.ursa ursaStatus
    cliquer := cqBumpCliquer stats.cliquer cliquerStatus
    reduction := if hasRed then cqBumpUrsa stats.reduction reductionStatus
                 else stats.reduction }


/-- `write_final_statistics` of `cliqueK_starter.py` (lines 136-159), as
the list of lines it appends to the report (`ts` is the
`time.strftime` timestamp). -/
def cqStatLines (stats : CqStats) (hasRed : Bool) (ts : PyStr) : List PyStr :=
  [[],
   strLit "FINAL STATISTICS:",
   List.replicate 17 '=',
   [],
   strLit "URSA Results:",
   strLit "Cliques found:     " ++ intRepr stats.ursa.found,
   strLit "Not found:         " ++ intRepr stats.ursa.notFound,
   strLit "Timeout:           " ++ intRepr stats.ursa.timeoutCnt,
   strLit "Error:             " ++ intRepr stats.ursa.errorCnt,
   [],
   strLit "Cliquer Results:",
   strLit "Cliques found:     " ++ intRepr stats.cliquer.found,
   strLit "Timeout:           " ++ intRepr stats.cliquer.timeoutCnt,
   strLit "Error:             " ++ intRepr stats.cliquer.errorCnt,
   []]
  ++ (if hasRed then
       [strLit "Reduction Results:",
        strLit "Cliques found:     " ++ intRepr stats.reduction.found,
        strLit "Not found:         " ++ intRepr stats.reduction.notFound,
        strLit "Timeout:           " ++ intRepr stats.reduction.timeoutCnt,
        strLit "Error:             " ++ intRepr stats.reduction.errorCnt,
        []]
      else [])
  ++ [strLit "Total instances:   " ++ intRepr stats.total,
      strLit "Completed: " ++ ts]


-- ### SAT benchmark ledger pipeline (`sat_starter.py`)

/-- Per-solver counters of the SAT driver (`_initialize_empty_stats`,
lines 237-244).  The `minisat` dict has no `UNKNOWN` key in the source;
its `unknown` field here stays `0` (never read, never written). -/
structure SatSolver : Type where
  sat : Int
  unsat : Int
  unknown : Int
  timeoutCnt : Int
  errorCnt : Int
deriving DecidableEq, Repr


/-- The `stats` dictionary of the SAT driver. -/
structure SatStats : Type where
  total : Int
  ursa : SatSolver
  minisat : SatSolver
  reduction : SatSolver
deriving DecidableEq, Repr


/-- `_initialize_empty_stats` (SAT driver). -/
def satEmptyStats : SatStats :=
  ⟨0, ⟨0, 0, 0, 0, 0⟩, ⟨0, 0, 0, 0, 0⟩, ⟨0, 0, 0, 0, 0⟩⟩


/-- `stats[solver][status] += 1` for `update_stats` of the SAT driver
(lines 90-96).  The run functions only ever produce the five keyed
statuses, so the missing-key (`KeyError`) case cannot arise; it is
modelled as a no-op. -/
def bumpSatSolver (s : SatSolver) (status : PyStr) : SatSolver :=
  if status = strLit "SAT" then { s with sat := s.sat + 1 }
  else if status = strLit "UNSAT" then { s with unsat := s.unsat + 1 }
  else if status = strLit "TIMEOUT" then { s with timeoutCnt := s.timeoutCnt + 1 }
  else if status = strLit "ERROR" then { s with errorCnt := s.errorCnt + 1 }
  else if status = strLit "UNKNOWN" then { s with unknown := s.unknown + 1 }
  else s


/-- One benchmarked instance of the SAT driver, carrying the data the
run loop records about it.  The file name is the basename; the category
is what `extract_category` returns for its path; solver statuses and
elapsed times (in microseconds) abstract the external solver runs. -/
structure SatEntry : Type where
  file : PyStr
  category : PyStr
  vars : Int
  clauses : Int
  ursaStatus : PyStr
  minisatStatus : PyStr
  redStatus : PyStr
  ursaTime : Nat
  minisatTime : Nat
  redTime : Nat
deriving DecidableEq, Repr


/-- `update_stats` of `sat_starter.py` (lines 90-96). -/
def satUpdateStats (st : SatStats) (e : SatEntry) (hasRed : Bool) : SatStats :=
  { st with
    total := st.total + 1
    ursa := bumpSatSolver st.ursa e.ursaStatus
    minisat := bumpSatSolver st.minisat e.minisatStatus
    reduction := if hasRed then bumpSatSolver st.reduction e.redStatus else st.reduction }


/-- Parsing context of `_parse_statistics_section` (the value of
`current_context`, which is only ever one of three strings). -/
inductive SatCtx : Type
  | ursa
  | minisat
  | reduction
deriving DecidableEq, Repr


/-- Update the counter selected by the context and field setter with the
integer parsed from the text after the first colon of the line; any
`IndexError`/`ValueError` is caught by the source (a warning is printed)
and leaves the statistics unchanged. -/
def satSetNum (st : SatStats) (line : PyStr) (upd : SatStats → Int → SatStats) : SatStats :=
  match afterFirstColon line with
  | none => st
  | some t =>
    match pyInt? (pyStrip t) with
    | none => st
    | some n => upd st n


/-- Field assignment `stats[context][key] = n`. -/
def satSetSolver (st : SatStats) (ctx : SatCtx) (f : SatSolver → Int → SatSolver) (n : Int) :
    SatStats :=
  match ctx with
  | .ursa => { st with ursa := f st.ursa n }
  | .minisat => { st with minisat := f st.minisat n }
  | .reduction => { st with reduction := f st.reduction n }


/-- `URSASATBenchmark._parse_stat_line` (lines 295-314), with the branch
order of the source: the `"SAT instances:"` substring test comes
first, so it also matches every `"UNSAT instances:"` line (whose text
contains `"SAT instances:"` as a substring) and the `UNSAT` branch is
unreachable. -/
def satParseStatLine (st : SatStats) (ctx : SatCtx) (line : PyStr) : SatStats :=
  if pyIn (strLit "SAT instances:") line then
    satSetNum st line (fun st n => satSetSolver st ctx (fun s v => { s with sat := v }) n)
  else if pyIn (strLit "UNSAT instances:") line then
    satSetNum st line (fun st n => satSetSolver st ctx (fun s v => { s with unsat := v }) n)
  else if pyIn (strLit "TIMEOUT instances:") line then
    satSetNum st line (fun st n => satSetSolver st ctx (fun s v => { s with timeoutCnt := v }) n)
  else if pyIn (strLit "ERROR instances:") line then
    satSetNum st line (fun st n => satSetSolver st ctx (fun s v => { s with errorCnt := v }) n)
  else if pyIn (strLit "UNKNOWN instances:") line
      && (ctx = SatCtx.ursa || ctx = SatCtx.reduction) then
    satSetNum st line (fun st n => satSetSolver st ctx (fun s v => { s with unknown := v }) n)
  else st


/-- The loop body of `URSASATBenchmark._parse_statistics_section`
(lines 266-293): context switching followed by the gated per-line
parse. -/
def satStatsSecStep (acc : SatStats × Option SatCtx) (line : PyStr) : SatStats × Option SatCtx :=
  let (st, ctx) := acc
  let (st, ctx) :=
    if pyIn (strLit "URSA Results:") line then (st, some SatCtx.ursa)
    else if pyIn (strLit "MiniSat Results:") line then (st, some SatCtx.minisat)
    else if pyIn (strLit "Reduction Results:") line then (st, some SatCtx.reduction)
    else if pyIn (strLit "Total instances:") line then
      (satSetNum st line (fun st n => { st with total := n }), none)
    else (st, ctx)
  match ctx with
  | some c => (if pyIn (strLit "instances:") line then satParseStatLine st c line else st, ctx)
  | none => (st, ctx)


/-- `URSASATBenchmark._parse_statistics_section`. -/
def satParseStatsSection (ls : List PyStr) : SatStats :=
  (ls.foldl satStatsSecStep (satEmptyStats, none)).1


/-- `write_final_statistics` of `sat_starter.py` (lines 98-125), as the
list of lines it appends. -/
def satStatLines (st : SatStats) (hasRed : Bool) (ts : PyStr) : List PyStr :=
  [[],
   strLit "FINAL STATISTICS:",
   List.replicate 17 '=',
   [],
   strLit "URSA Results:",
   strLit "SAT instances:     " ++ intRepr st.ursa.sat,
   strLit "UNSAT instances:   " ++ intRepr st.ursa.unsat,
   strLit "UNKNOWN instances: " ++ intRepr st.ursa.unknown,
   strLit "TIMEOUT instances: " ++ intRepr st.ursa.timeoutCnt,
   strLit "ERROR instances:   " ++ intRepr st.ursa.errorCnt,
   [],
   strLit "MiniSat Results:",
   strLit "SAT instances:     " ++ intRepr st.minisat.sat,
   strLit "UNSAT instances:   " ++ intRepr st.minisat.unsat,
   strLit "TIMEOUT instances: " ++ intRepr st.minisat.timeoutCnt,
   strLit "ERROR instances:   " ++ intRepr st.minisat.errorCnt,
   []]
  ++ (if hasRed then
       [strLit "Reduction Results:",
        strLit "SAT instances:     " ++ intRepr st.reduction.sat,
        strLit "UNSAT instances:   " ++ intRepr st.reduction.unsat,
        strLit "UNKNOWN instances: " ++ intRepr st.reduction.unknown,
        strLit "TIMEOUT instances: " ++ intRepr st.reduction.timeoutCnt,
        strLit "ERROR instances:   " ++ intRepr st.reduction.errorCnt,
        []]
      else [])
  ++ [strLit "Total instances:   " ++ intRepr st.total,
      strLit "Completed: " ++ ts]


/-- The column fields of `write_header` of `sat_starter.py`
(lines 67-86). -/
def satHeaderParts (hasRed : Bool) : List PyStr :=
  [padRight (strLit "Category") 12,
   padRight (strLit "File") 35,
   padRight (strLit "Variables") 9,
   padRight (strLit "Clauses") 8,
   padRight (strLit "URSA") 8,
   padRight (strLit "MiniSat") 8]
  ++ (if hasRed then [padRight (strLit "Reduction") 10] else [])
  ++ [padRight (strLit "URSA Time") 10,
      padRight (strLit "MiniSat Time") 12]
  ++ (if hasRed then [padRight (strLit "Reduction Time") 14] else [])


/-- `write_header` of `sat_starter.py` (lines 52-88), as a list of
lines (`ts` is the start timestamp). -/
def satHeaderLines (hasRed saveUrs : Bool) (ts : PyStr) : List PyStr :=
  let parts := satHeaderParts hasRed
  [strLit "URSA Benchmark (solver_template) vs MiniSat"
     ++ (if hasRed then strLit " vs URSA Reduction (reduction_template)" else []),
   List.replicate 47 '=',
   strLit "Started: " ++ ts]
  ++ (if saveUrs then
       strLit "URS files will be saved to: urs_files"
         :: (if hasRed then [strLit "Reduction files will be saved to: reduction_files"] else [])
      else [])
  ++ [[],
      joinSep (strLit " | ") parts,
      List.replicate ((parts.map List.length).sum + 3 * (parts.length - 1)) '-']


/-- One result row (lines 625-646 of `sat_starter.py`). -/
def satRowLine (e : SatEntry) (hasRed : Bool) : PyStr :=
  joinSep (strLit " | ")
    ([padRight e.category 12,
      padRight e.file 35,
      padRight (intRepr e.vars) 9,
      padRight (intRepr e.clauses) 8,
      padRight e.ursaStatus 8,
      padRight e.minisatStatus 8]
     ++ (if hasRed then [padRight e.redStatus 10] else [])
     ++ [padRight (fmtFixed6 e.ursaTime) 10,
         padRight (fmtFixed6 e.minisatTime) 12]
     ++ (if hasRed then [padRight (fmtFixed6 e.redTime) 14] else []))


/-- `URSASATBenchmark._extract_processed_filenames` (lines 253-264). -/
def satExtractProcessed (ls : List PyStr) : List PyStr :=
  ls.foldl (fun acc line =>
    if pyIn (strLit "|") line && pyIn (strLit ".cnf") line then
      match (pySplitChar '|' line).get? 1 with
      | none => acc
      | some part =>
        let p := pyStrip part
        if pyIn (strLit ".cnf") p then pyInsert acc p else acc
    else acc) []


/-- `URSASATBenchmark._extract_header_lines` (lines 246-251). -/
def satExtractHeader (ls : List PyStr) : List PyStr :=
  match ls.findIdx? (fun l => pyIn (strLit "-----") l) with
  | some i => ls.take (i + 1)
  | none => []


/-- `URSASATBenchmark.load_existing_results` (lines 189-235) on a file
modelled as `none` (absent) or its list of lines; returns
`(processed files, existing statistics, header lines)`. -/
def satLoadExisting : Option (List PyStr) → List PyStr × SatStats × List PyStr
  | none => ([], satEmptyStats, [])
  | some lines =>
    match lines.findIdx? (fun l => pyIn (strLit "FINAL STATISTICS:") l) with
    | none => (satExtractProcessed lines, satEmptyStats, satExtractHeader lines)
    | some i =>
      (satExtractProcessed (lines.take i),
       satParseStatsSection (lines.drop i),
       satExtractHeader (lines.take i))


/-- `prepare_output_file` of `sat_starter.py` (lines 143-154): returns
the lines the output file holds when the run loop starts, together with
whether the file was opened in write mode (header to be written). -/
def satPrepareOutput : Option (List PyStr) → Bool → List PyStr × Bool
  | none, _ => ([], true)
  | some lines, continueMode =>
    if continueMode then
      match lines.findIdx? (fun l => pyIn (strLit "FINAL STATISTICS:") l) with
      | some i => if i > 0 then (lines.take i, false) else (lines, false)
      | none => (lines, false)
    else ([], true)


/-- `URSASATBenchmark.benchmark_file` (lines 521-583), restricted to the
skip check: an already-processed file yields `None` (no row, no
statistics update).  Instances are presented as parsed entries, so the
parse-failure path does not arise here. -/
def satBenchFile (e : SatEntry) (processed : List PyStr) (continueMode : Bool) :
    Option SatEntry :=
  if continueMode && processed.contains e.file then none else some e


/-- The per-file loop of `benchmark_directory` (lines 608-647):
accumulates result rows and this-run statistics. -/
def satRunLoop (entries : List SatEntry) (processed : List PyStr)
    (continueMode hasRed : Bool) : List PyStr × SatStats :=
  entries.foldl (fun acc e =>
    match satBenchFile e processed continueMode with
    | none => acc
    | some r => (acc.1 ++ [satRowLine r hasRed], satUpdateStats acc.2 r hasRed))
    ([], satEmptyStats)


/-- Field-by-field merge of resumed and this-run statistics
(lines 650-655). -/
def satAddStats (a b : SatStats) : SatStats :=
  ⟨a.total + b.total,
   ⟨a.ursa.sat + b.ursa.sat, a.ursa.unsat + b.ursa.unsat, a.ursa.unknown + b.ursa.unknown,
    a.ursa.timeoutCnt + b.ursa.timeoutCnt, a.ursa.errorCnt + b.ursa.errorCnt⟩,
   ⟨a.minisat.sat + b.minisat.sat, a.minisat.unsat + b.minisat.unsat,
    a.minisat.unknown + b.minisat.unknown,
    a.minisat.timeoutCnt + b.minisat.timeoutCnt, a.minisat.errorCnt + b.minisat.errorCnt⟩,
   ⟨a.reduction.sat + b.reduction.sat, a.reduction.unsat + b.reduction.unsat,
    a.reduction.unknown + b.reduction.unknown,
    a.reduction.timeoutCnt + b.reduction.timeoutCnt,
    a.reduction.errorCnt + b.reduction.errorCnt⟩⟩


/-- `URSASATBenchmark.benchmark_directory` (lines 586-662): the report
file produced by one run over `entries`, starting from `existing` (the
prior lines of the report file, or `none` when the file does not exist).
`tsStart`/`tsEnd` are the two timestamps.  Directory walking and the
`find_dimacs_files` sort are external; `entries` is the sorted batch. -/
def satBenchmarkDirectory (entries : List SatEntry) (hasRed saveUrs continueMode : Bool)
    (existing : Option (List PyStr)) (tsStart tsEnd : PyStr) : List PyStr :=
  let loaded := if continueMode then satLoadExisting existing else ([], satEmptyStats, [])
  let processed := loaded.1
  let existingStats := loaded.2.1
  -- `filter_files` (lines 127-141)
  let toProcess :=
    entries.filter (fun e => ¬ (continueMode && processed.contains e.file))
  let prep := satPrepareOutput existing continueMode
  let start := if prep.2 then satHeaderLines hasRed saveUrs tsStart else prep.1
  let run := satRunLoop toProcess processed continueMode hasRed
  let combined := satAddStats existingStats run.2
  start ++ run.1 ++ satStatLines combined hasRed tsEnd


-- ### Concrete batches exercising the resumption machinery

/-- Helper for concrete entries: all times 0.1s / 0.2s, category as
`extract_category` yields for a plain path. -/
def mkSatEntry (nm : String) (st : String) : SatEntry :=
  { file := strLit nm, category := strLit "UNKNOWN", vars := 3, clauses := 2,
    ursaStatus := strLit st, minisatStatus := strLit st, redStatus := strLit st,
    ursaTime := 100000, minisatTime := 200000, redTime := 0 }


/-- Instance `a.cnf`, UNSAT under both solvers. -/
def entA : SatEntry := mkSatEntry "a.cnf" "UNSAT"


/-- Instance `b.cnf`, SAT under both solvers. -/
def entB : SatEntry := mkSatEntry "b.cnf" "SAT"


/-- Instance `c.cnf`, UNSAT under both solvers. -/
def entC : SatEntry := mkSatEntry "c.cnf" "UNSAT"


/-- Timestamp placeholder. -/
def tsLit : PyStr := strLit "t"


/-- The report of running the batch `[a.cnf, b.cnf]` to completion in a
single fresh pass. -/
def c1OnePassFile : List PyStr :=
  satBenchmarkDirectory [entA, entB] false false false none tsLit tsLit


/-- The report of the interrupted run: only the first instance was
processed before the run stopped, with its `FINAL STATISTICS` section
written (the `ACTIVE → FINALIZED` transition of the ledger). -/
def c1FirstRunFile : List PyStr :=
  satBenchmarkDirectory [entA] false false false none tsLit tsLit


/-- The report after re-invoking the full batch with the resume flag on
top of the report of the interrupted run. -/
def c1ResumedFile : List PyStr :=
  satBenchmarkDirectory [entA, entB] false false true (some c1FirstRunFile) tsLit tsLit


/-- A fully processed three-instance batch (1 SAT, 2 UNSAT). -/
def c2File : List PyStr :=
  satBenchmarkDirectory [entA, entB, entC] false false false none tsLit tsLit


/-- Re-running the already fully processed batch with resume enabled. -/
def c2RerunFile : List PyStr :=
  satBenchmarkDirectory [entA, entB, entC] false false true (some c2File) tsLit tsLit


/-- Result rows of a report file (lines with the field separator and an
instance filename), used to count rows added by a run. -/
def satRowsOf (ls : List PyStr) : List PyStr :=
  ls.filter (fun l => pyIn (strLit "|") l && pyIn (strLit ".cnf") l)


-- ### Claim C4: parser failure conditions

/-- A stripped line that is a graph header (`p edge` / `p col`) whose
declared counts cannot be read (missing token or non-integer). -/
def gHeaderBadCore (line : PyStr) : Bool :=
  ((strLit "p edge").isPrefixOf line || (strLit "p col").isPrefixOf line)
    && (readHeaderCounts (pySplitWs line)).isNone


/-- `gHeaderBadCore` after the per-line `strip` of the loop. -/
def gHeaderBad (raw : PyStr) : Bool := gHeaderBadCore (pyStrip raw)


/-- A stripped line that is a CNF header (`p cnf`) whose declared
counts cannot be read. -/
def sHeaderBadCore (line : PyStr) : Bool :=
  (strLit "p cnf").isPrefixOf line && (readHeaderCounts (pySplitWs line)).isNone


/-- `sHeaderBadCore` after the per-line `strip` of the loop. -/
def sHeaderBad (raw : PyStr) : Bool := sHeaderBadCore (pyStrip raw)


-- ### Claim C9: trailing zero terminator

/-- `line.split()` tokens with a trailing `"0"` terminator removed. -/
def dropTrailingTerminator (toks : List PyStr) : List PyStr :=
  if toks.getLast? = some (strLit "0") then toks.dropLast else toks

/-! ## Theorems -/


theorem digitChar_mem_of_lt (n : Nat) (h : n < 10) : Nat.digitChar n ∈ digitChars := by
  interval_cases n <;> decide


theorem digitVal_digitChar (n : Nat) (h : n < 10) : digitVal (Nat.digitChar n) = n := by
  interval_cases n <;> decide


theorem digitsOf_ne_nil (n : Nat) : digitsOf n ≠ [] := by
  rw [digitsOf]
  split <;> simp


theorem digitsOf_mem (n : Nat) : ∀ c ∈ digitsOf n, c ∈ digitChars := by
  induction n using Nat.strong_induction_on with
  | _ n ih =>
    rw [digitsOf]
    split
    · intro c hc
      simp only [List.mem_singleton] at hc
      subst hc
      exact digitChar_mem_of_lt n (by omega)
    · intro c hc
      have hdiv : n / 10 < n := Nat.div_lt_self (by omega) (by omega)
      rcases List.mem_append.mp hc with h | h
      · exact ih (n / 10) hdiv c h
      · simp only [List.mem_singleton] at h
        subst h
        exact digitChar_mem_of_lt _ (Nat.mod_lt _ (by omega))


theorem digitsVal_append_last (l : PyStr) (c : Char) :
    digitsVal (l ++ [c]) = 10 * digitsVal l + digitVal c := by
  simp [digitsVal, List.foldl_append]


theorem digitsVal_digitsOf (n : Nat) : digitsVal (digitsOf n) = n := by
  induction n using Nat.strong_induction_on with
  | _ n ih =>
    rw [digitsOf]
    split
    · simp [digitsVal, digitVal_digitChar n (by omega)]
    · rw [digitsVal_append_last, ih (n / 10) (Nat.div_lt_self (by omega) (by omega)),
        digitVal_digitChar _ (Nat.mod_lt _ (by omega))]
      omega


theorem natDigitsGo_eq (n : Nat) : ∀ fuel acc, n ≤ fuel →
    natDigitsGo fuel n acc = digitsOf n ++ acc := by
  induction n using Nat.strong_induction_on with
  | _ n ih =>
    intro fuel acc hle
    match fuel with
    | 0 =>
      have hn : n = 0 := by omega
      subst hn
      simp [natDigitsGo, digitsOf]
    | fuel + 1 =>
      rw [natDigitsGo]
      by_cases h : n < 10
      · rw [if_pos h, digitsOf, if_pos h]
        simp
      · rw [if_neg h, ih (n / 10) (Nat.div_lt_self (by omega) (by omega)) fuel _ (by omega)]
        conv_rhs => rw [digitsOf, if_neg h]
        simp


theorem natRepr_eq_digitsOf (n : Nat) : natRepr n = digitsOf n := by
  have h := natDigitsGo_eq n n [] (le_refl n)
  simpa [natRepr] using h


theorem natRepr_ne_nil (n : Nat) : natRepr n ≠ [] := by
  rw [natRepr_eq_digitsOf]; exact digitsOf_ne_nil n


theorem natRepr_mem (n : Nat) : ∀ c ∈ natRepr n, c ∈ digitChars := by
  rw [natRepr_eq_digitsOf]; exact digitsOf_mem n


theorem natRepr_inj {a b : Nat} (h : natRepr a = natRepr b) : a = b := by
  have := congrArg digitsVal h
  rwa [natRepr_eq_digitsOf, natRepr_eq_digitsOf, digitsVal_digitsOf, digitsVal_digitsOf] at this


theorem intRepr_mem (i : Int) : ∀ c ∈ intRepr i, c ∈ negDigitChars := by
  intro c hc
  unfold intRepr at hc
  have hsub : ∀ d, d ∈ digitChars → d ∈ negDigitChars := by decide
  split at hc
  · simp only [List.mem_cons] at hc
    rcases hc with h | h
    · subst h; decide
    · exact hsub c (natRepr_mem _ c h)
  · exact hsub c (natRepr_mem _ c hc)


theorem intRepr_inj {a b : Int} (h : intRepr a = intRepr b) : a = b := by
  have hhead : ∀ m l, ('-' :: l : PyStr) ≠ natRepr m := by
    intro m l he
    have : '-' ∈ natRepr m := by rw [← he]; simp
    have := natRepr_mem m '-' this
    simp [digitChars, strLit] at this
  unfold intRepr at h
  split at h <;> split at h
  · simp only [List.cons.injEq] at h
    have := natRepr_inj h.2
    omega
  · exact absurd h (hhead _ _)
  · exact absurd h.symm (hhead _ _)
  · have := natRepr_inj h
    omega


-- ### Substring / prefix lemmas

theorem isPrefixOf_append_excl (p : PyStr) : ∀ (a b : PyStr), (∀ c ∈ b, c ∉ p) →
    List.isPrefixOf p (a ++ b) = List.isPrefixOf p a := by
  induction p with
  | nil => intro a b _; simp [List.isPrefixOf]
  | cons x p' ih =>
    intro a b hb
    match a with
    | [] =>
      simp only [List.nil_append]
      match b with
      | [] => rfl
      | c :: b' =>
        have hx : ¬ (x == c) = true := by
          intro h
          exact hb c (by simp) (by simp [beq_iff_eq] at h; simp [h])
        simp [List.isPrefixOf, hx]
    | y :: a' =>
      simp only [List.cons_append, List.isPrefixOf, List.append_eq]
      rw [ih a' b (fun c hc => fun hm => hb c hc (by simp [hm]))]


theorem pyIn_nil_of_excl (p : PyStr) : ∀ (b : PyStr), (∀ c ∈ b, c ∉ p) →
    pyIn p b = p.isEmpty := by
  intro b
  induction b with
  | nil => intro _; rfl
  | cons c b' ih =>
    intro hb
    match p with
    | [] => simp [pyIn, List.isPrefixOf]
    | x :: p' =>
      have hx : ¬ (x == c) = true := by
        intro h
        exact hb c (by simp) (by simp [beq_iff_eq] at h; simp [h])
      simp only [pyIn, List.isPrefixOf, hx, Bool.false_and, Bool.false_or]
      exact ih (fun d hd => hb d (by simp [hd]))


theorem pyIn_append_excl (p : PyStr) : ∀ (a b : PyStr), (∀ c ∈ b, c ∉ p) →
    pyIn p (a ++ b) = pyIn p a := by
  intro a
  induction a with
  | nil =>
    intro b hb
    simp only [List.nil_append]
    rw [pyIn_nil_of_excl p b hb]
    cases p <;> rfl
  | cons y a' ih =>
    intro b hb
    simp only [List.cons_append, pyIn, List.append_eq]
    rw [← List.cons_append, isPrefixOf_append_excl p (y :: a') b hb, ih b hb]


/-- Splitting an equation at a separator character that occurs in
the first segment of either side. -/
theorem append_sep_inj (sep : Char) : ∀ (x y u v : PyStr), sep ∉ x → sep ∉ y →
    x ++ sep :: u = y ++ sep :: v → x = y ∧ u = v := by
  intro x
  induction x with
  | nil =>
    intro y u v _ hy h
    match y with
    | [] => simpa using h
    | c :: y' =>
      simp only [List.nil_append, List.cons_append, List.cons.injEq] at h
      exact absurd (by simp [← h.1]) hy
  | cons c x' ih =>
    intro y u v hx hy h
    match y with
    | [] =>
      simp only [List.cons_append, List.nil_append, List.cons.injEq] at h
      exact absurd (by simp [h.1]) hx
    | d :: y' =>
      simp only [List.cons_append, List.cons.injEq] at h
      obtain ⟨h1, h2⟩ := h
      obtain ⟨hxy, huv⟩ := ih y' u v (fun hm => hx (by simp [hm])) (fun hm => hy (by simp [hm])) h2
      exact ⟨by simp [h1, hxy], huv⟩


theorem sep_not_mem_natRepr (n : Nat) {c : Char} (hc : c ∉ digitChars) : c ∉ natRepr n :=
  fun hm => hc (natRepr_mem n c hm)


theorem sep_not_mem_intRepr (i : Int) {c : Char} (hc : c ∉ negDigitChars) : c ∉ intRepr i :=
  fun hm => hc (intRepr_mem i c hm)


theorem runTrueAssigns_true_iff {α : Type} [DecidableEq α] :
    ∀ (ps : List α) (m : α → Bool) (x : α),
      runTrueAssigns ps m x = true ↔ x ∈ ps ∨ m x = true := by
  intro ps
  induction ps with
  | nil => intro m x; simp [runTrueAssigns]
  | cons p ps ih =>
    intro m x
    show runTrueAssigns ps (setTrue m p) x = true ↔ _
    rw [ih]
    by_cases hx : x = p <;> simp [setTrue, hx]


-- ### Claims C1 and C2

/-- Claim C1: round-trip resumption — for every batch, running all
instances in a single pass and running the batch interrupted after
`k < N` completed instances (its ledger finalized) then re-invoked with
the resume flag were claimed to produce the same final ledger.  The
claim FAILS on the code: on the concrete batch `[a.cnf (UNSAT),
b.cnf (SAT)]` interrupted after `a.cnf`, the resumed run reports
`SAT instances: 2, UNSAT instances: 0` where the single pass reports
`SAT instances: 1, UNSAT instances: 1` (the processed-instance sets do
agree).  Root cause: `_parse_stat_line` tests the substring
`"SAT instances:"` first, which also matches every
`"UNSAT instances:"` line, so resumed UNSAT counts are loaded into the
SAT bucket and the `UNSAT` branch is dead code. -/
theorem c1_resumption_roundtrip_diverges :
    (satLoadExisting (some c1OnePassFile)).1 = [strLit "a.cnf", strLit "b.cnf"]
    ∧ (satLoadExisting (some c1ResumedFile)).1 = [strLit "a.cnf", strLit "b.cnf"]
    ∧ c1OnePassFile.filter (fun l => (strLit "UNSAT instances:").isPrefixOf l)
        = [strLit "UNSAT instances:   1", strLit "UNSAT instances:   1"]
    ∧ c1ResumedFile.filter (fun l => (strLit "UNSAT instances:").isPrefixOf l)
        = [strLit "UNSAT instances:   0", strLit "UNSAT instances:   0"]
    ∧ c1OnePassFile.filter (fun l => (strLit "SAT instances:").isPrefixOf l)
        = [strLit "SAT instances:     1", strLit "SAT instances:     1"]
    ∧ c1ResumedFile.filter (fun l => (strLit "SAT instances:").isPrefixOf l)
        = [strLit "SAT instances:     2", strLit "SAT instances:     2"] := by
  decide


/-- Claim C2: idempotent skip — re-running an already fully processed
batch with resume enabled was claimed to add zero new result rows and
leave every aggregate count unchanged.  The row half holds, but the
aggregate half FAILS on the code for the same `_parse_stat_line` reason
as C1: re-running the fully processed batch `[a.cnf (UNSAT),
b.cnf (SAT), c.cnf (UNSAT)]` rewrites `UNSAT instances: 2` to
`UNSAT instances: 0` and `SAT instances: 1` to `SAT instances: 2`
(the grand total stays 3). -/
theorem c2_idempotent_skip_diverges :
    satRowsOf c2RerunFile = satRowsOf c2File
    ∧ c2File.filter (fun l => (strLit "UNSAT instances:").isPrefixOf l)
        = [strLit "UNSAT instances:   2", strLit "UNSAT instances:   2"]
    ∧ c2RerunFile.filter (fun l => (strLit "UNSAT instances:").isPrefixOf l)
        = [strLit "UNSAT instances:   0", strLit "UNSAT instances:   0"]
    ∧ c2File.filter (fun l => (strLit "SAT instances:").isPrefixOf l)
        = [strLit "SAT instances:     1", strLit "SAT instances:     1"]
    ∧ c2RerunFile.filter (fun l => (strLit "SAT instances:").isPrefixOf l)
        = [strLit "SAT instances:     2", strLit "SAT instances:     2"]
    ∧ c2File.filter (fun l => (strLit "Total instances:").isPrefixOf l)
        = c2RerunFile.filter (fun l => (strLit "Total instances:").isPrefixOf l) := by
  decide


-- ### Claims C3, C7, C8

/-- Claim C3: classifier precedence tie-break — any solver stdout that
contains both the positive marker `"--> Solution"` and the
`"0 solutions"` phrase classifies, under exit code 0, as the positive
outcome in both drivers (`FOUND` for the clique driver,
`SAT` for the SAT driver): the positive rule of `is_sat_output` is
applied before the negative-outcome rule. -/
theorem c3_classifier_positive_precedence
    (stdout : PyStr) (wall timeoutCfg : ℚ) (csize : PyStr → Nat)
    (hpos : pyIn (strLit "--> Solution") stdout = true)
    (_hzero : pyIn (strLit "0 solutions") stdout = true) :
    (cqRunUrsa timeoutCfg csize (ProcBehavior.completes stdout 0 wall)).1 = strLit "FOUND"
    ∧ (satRunUrsa timeoutCfg (ProcBehavior.completes stdout 0 wall)).1 = strLit "SAT" := by
  have hsat : is_sat_output stdout = true := by
    unfold is_sat_output
    rw [hpos]
    simp
  constructor
  · simp [cqRunUrsa, hsat]
  · simp [satRunUrsa, hsat]


/-- Witness for C3 at a concrete stdout containing both markers. -/
theorem c3_classifier_positive_precedence_witness :
    pyIn (strLit "--> Solution") (strLit "--> Solution found; 0 solutions pruned") = true
    ∧ pyIn (strLit "0 solutions") (strLit "--> Solution found; 0 solutions pruned") = true
    ∧ ((cqRunUrsa 5 (fun _ => 0)
          (ProcBehavior.completes (strLit "--> Solution found; 0 solutions pruned") 0 (7 : ℚ))).1
            = strLit "FOUND"
        ∧ (satRunUrsa 5
            (ProcBehavior.completes (strLit "--> Solution found; 0 solutions pruned") 0 (7 : ℚ))).1
              = strLit "SAT") :=
  ⟨by decide, by decide,
   c3_classifier_positive_precedence _ 7 5 (fun _ => 0) (by decide) (by decide)⟩


/-- Claim C7: timeout reporting — when a solver run exceeds the
configured timeout (`TimeoutExpired`), the runners return the `TIMEOUT`
status with the configured timeout value as the elapsed time; the
actually measured wall time `wall` does not appear in the result.
Covers `URSACliqueBenchmark.run_ursa`, `URSASATBenchmark.run_minisat`
(the cited code), and the other two runners. -/
theorem c7_timeout_reports_configured_timeout
    (timeoutCfg wall : ℚ) (csize : PyStr → Nat) :
    cqRunUrsa timeoutCfg csize (ProcBehavior.timesOut wall)
        = (strLit "TIMEOUT", timeoutCfg, 0)
    ∧ satRunMinisat timeoutCfg (ProcBehavior.timesOut wall) = (strLit "TIMEOUT", timeoutCfg)
    ∧ satRunUrsa timeoutCfg (ProcBehavior.timesOut wall) = (strLit "TIMEOUT", timeoutCfg)
    ∧ cqRunCliquer timeoutCfg csize (ProcBehavior.timesOut wall)
        = (strLit "TIMEOUT", timeoutCfg, 0) :=
  ⟨rfl, rfl, rfl, rfl⟩


/-- Claim C8: launch-failure absorption — a failure to launch the
solver process yields the `ERROR` outcome with elapsed time `0` in every
runner; the runners are total functions of the process behaviour, so no
subprocess failure escapes them as an exception. -/
theorem c8_launch_failure_absorbed (timeoutCfg : ℚ) (csize : PyStr → Nat) :
    cqRunUrsa timeoutCfg csize ProcBehavior.launchFail = (strLit "ERROR", 0, 0)
    ∧ satRunUrsa timeoutCfg ProcBehavior.launchFail = (strLit "ERROR", 0)
    ∧ satRunMinisat timeoutCfg ProcBehavior.launchFail = (strLit "ERROR", 0)
    ∧ cqRunCliquer timeoutCfg csize ProcBehavior.launchFail = (strLit "ERROR", 0, 0) :=
  ⟨rfl, rfl, rfl, rfl⟩


theorem header_shape {l : PyStr} {pre : PyStr} (c0 : Char) (pre' : PyStr)
    (hpre : pre = c0 :: pre') (h : pre.isPrefixOf l = true) :
    ∃ rest, l = c0 :: rest := by
  subst hpre
  match l with
  | [] => exact absurd h (by simp [List.isPrefixOf])
  | c :: rest =>
    have h2 : ((c0 == c) && pre'.isPrefixOf rest) = true := h
    have := ((Bool.and_eq_true _ _).mp h2).1
    exact ⟨rest, by rw [(beq_iff_eq.mp this)]⟩


theorem gLineCore_error_of_bad (st : GSt) (line : PyStr) (h : gHeaderBadCore line = true) :
    gLineCore st line = .error () := by
  obtain ⟨hpfx, hnone⟩ := (Bool.and_eq_true _ _).mp h
  obtain ⟨rest, hrest⟩ : ∃ rest, line = 'p' :: rest := by
    rcases Bool.or_eq_true_iff.mp hpfx with h' | h'
    · exact header_shape 'p' (strLit " edge") (by decide) h'
    · exact header_shape 'p' (strLit " col") (by decide) h'
  subst hrest
  have hskip : (decide (('p' :: rest : PyStr) = []) || (strLit "c").isPrefixOf ('p' :: rest))
      = false := by
    have hc : (strLit "c").isPrefixOf ('p' :: rest)
        = (('c' == 'p') && ([] : PyStr).isPrefixOf rest) := rfl
    simp [hc]
  unfold gLineCore
  rw [if_neg (by rw [hskip]; simp), if_pos hpfx, Option.isNone_iff_eq_none.mp hnone]


theorem sLineCore_error_of_bad (st : CSt) (line : PyStr) (h : sHeaderBadCore line = true) :
    sLineCore st line = .error () := by
  obtain ⟨hpfx, hnone⟩ := (Bool.and_eq_true _ _).mp h
  obtain ⟨rest, hrest⟩ : ∃ rest, line = 'p' :: rest :=
    header_shape 'p' (strLit " cnf") (by decide) hpfx
  subst hrest
  have hskip : (decide (('p' :: rest : PyStr) = []) || (strLit "c").isPrefixOf ('p' :: rest)
      || (strLit "%").isPrefixOf ('p' :: rest)) = false := by
    have hc : (strLit "c").isPrefixOf ('p' :: rest)
        = (('c' == 'p') && ([] : PyStr).isPrefixOf rest) := rfl
    have hpct : (strLit "%").isPrefixOf ('p' :: rest)
        = (('%' == 'p') && ([] : PyStr).isPrefixOf rest) := rfl
    simp [hc, hpct]
  unfold sLineCore
  rw [if_neg (by rw [hskip]; simp), if_pos hpfx, Option.isNone_iff_eq_none.mp hnone]


theorem gRun_error_of_bad : ∀ (ls : List PyStr) (st : GSt),
    (∃ l ∈ ls, gHeaderBad l = true) → gRun ls st = .error () := by
  intro ls
  induction ls with
  | nil => intro st h; simp at h
  | cons l ls ih =>
    intro st h
    rcases h with ⟨l', hl', hbad⟩
    rcases List.mem_cons.mp hl' with rfl | hmem
    · show (match gLineStep st l' with
            | Except.error e => Except.error e
            | Except.ok st2 => gRun ls st2) = Except.error ()
      rw [show gLineStep st l' = .error () from gLineCore_error_of_bad st (pyStrip l') hbad]
    · show (match gLineStep st l with
            | Except.error e => Except.error e
            | Except.ok st2 => gRun ls st2) = Except.error ()
      cases hstep : gLineStep st l with
      | error e => cases e; rfl
      | ok st2 => exact ih st2 ⟨l', hmem, hbad⟩


theorem sRun_error_of_bad : ∀ (ls : List PyStr) (st : CSt),
    (∃ l ∈ ls, sHeaderBad l = true) → sRun ls st = .error () := by
  intro ls
  induction ls with
  | nil => intro st h; simp at h
  | cons l ls ih =>
    intro st h
    rcases h with ⟨l', hl', hbad⟩
    rcases List.mem_cons.mp hl' with rfl | hmem
    · show (match sLineStep st l' with
            | Except.error e => Except.error e
            | Except.ok st2 => sRun ls st2) = Except.error ()
      rw [show sLineStep st l' = .error () from sLineCore_error_of_bad st (pyStrip l') hbad]
    · show (match sLineStep st l with
            | Except.error e => Except.error e
            | Except.ok st2 => sRun ls st2) = Except.error ()
      cases hstep : sLineStep st l with
      | error e => cases e; rfl
      | ok st2 => exact ih st2 ⟨l', hmem, hbad⟩


/-- Claim C4, counterexample to the header-absence half: an input with
no header line does NOT make the parser fail — both parsers return an
instance with declared counts `0` (the graph input `"e 1 2"` yields
`(0, 0, [(1,2)])`, the CNF input `"1 -2 0"` yields `(0, 0, [[1,-2]])`),
refuting "parse fails ... for every input text whose required header
line is absent". -/
theorem c4_header_absent_counterexample :
    parse_dimacs_graph (strLit "e 1 2") = .ok ⟨0, 0, [(1, 2)]⟩
    ∧ (pySplitChar '\n' (pyStrip (strLit "e 1 2"))).all
        (fun l => ¬ ((strLit "p edge").isPrefixOf (pyStrip l)
            || (strLit "p col").isPrefixOf (pyStrip l))) = true
    ∧ parse_dimacs (strLit "1 -2 0") = .ok ⟨0, 0, [[1, -2]]⟩
    ∧ (pySplitChar '\n' (pyStrip (strLit "1 -2 0"))).all
        (fun l => ¬ (strLit "p cnf").isPrefixOf (pyStrip l)) = true := by
  refine ⟨rfl, by decide, rfl, by decide⟩


/-- Claim C4 (amended): the parsers fail exactly as uncaught
`int(...)` / indexing errors; in particular, whenever some line of the
input is a header line (`p edge`/`p col` for graphs, `p cnf` for CNF)
whose declared counts cannot be read as integers, the parse returns an
error.  An input whose header line is absent does not fail (see the
counterexample). -/
theorem c4_malformed_count_fails :
    (∀ content : PyStr,
      (∃ raw ∈ pySplitChar '\n' (pyStrip content), gHeaderBad raw = true) →
        parse_dimacs_graph content = .error ())
    ∧ (∀ content : PyStr,
      (∃ raw ∈ pySplitChar '\n' (pyStrip content), sHeaderBad raw = true) →
        parse_dimacs content = .error ()) :=
  ⟨fun _content h => gRun_error_of_bad _ _ h,
   fun _content h => sRun_error_of_bad _ _ h⟩


/-- Witness for C4: header lines with a non-integer vertex/variable
count (`"p edge x 3"`, `"p cnf y 1"`) make both parsers fail. -/
theorem c4_malformed_count_fails_witness :
    ((∃ raw ∈ pySplitChar '\n' (pyStrip (strLit "p edge x 3\ne 1 2")), gHeaderBad raw = true)
      ∧ parse_dimacs_graph (strLit "p edge x 3\ne 1 2") = .error ())
    ∧ ((∃ raw ∈ pySplitChar '\n' (pyStrip (strLit "p cnf y 1\n1 -2 0")), sHeaderBad raw = true)
      ∧ parse_dimacs (strLit "p cnf y 1\n1 -2 0") = .error ()) :=
  ⟨⟨by decide, c4_malformed_count_fails.1 _ (by decide)⟩,
   ⟨by decide, c4_malformed_count_fails.2 _ (by decide)⟩⟩


theorem optMapM_mem {α β : Type} (f : α → Option β) :
    ∀ {l : List α} {r : List β}, optMapM f l = some r → ∀ x ∈ l, (f x).isSome := by
  intro l
  induction l with
  | nil => intro r _ x hx; simp at hx
  | cons t ts ih =>
    intro r h x hx
    unfold optMapM at h
    cases hft : f t with
    | none => rw [hft] at h; exact absurd h (by simp)
    | some v =>
      rw [hft] at h
      cases hrest : optMapM f ts with
      | none => rw [hrest] at h; exact absurd h (by simp)
      | some vs =>
        rcases List.mem_cons.mp hx with rfl | hx'
        · simp [hft]
        · exact ih hrest x hx'


theorem optMapM_isSome {α β : Type} (f : α → Option β) :
    ∀ (l : List α), (∀ x ∈ l, (f x).isSome) → ∃ r, optMapM f l = some r := by
  intro l
  induction l with
  | nil => intro _; exact ⟨[], rfl⟩
  | cons t ts ih =>
    intro h
    obtain ⟨v, hv⟩ := Option.isSome_iff_exists.mp (h t (by simp))
    obtain ⟨vs, hvs⟩ := ih (fun x hx => h x (by simp [hx]))
    exact ⟨v :: vs, by unfold optMapM; rw [hv, hvs]⟩


theorem optMapM_sublist {α β : Type} (f : α → Option β) :
    ∀ {s l : List α}, s.Sublist l → ∀ {rs r : List β},
      optMapM f s = some rs → optMapM f l = some r → rs.Sublist r := by
  intro s l hsl
  induction hsl with
  | slnil =>
    intro rs r hs hl
    simp only [optMapM] at hs hl
    cases hs; cases hl
    exact List.Sublist.refl _
  | cons a _hsl ih =>
    intro rs r hs hl
    unfold optMapM at hl
    cases hfa : f a with
    | none => rw [hfa] at hl; exact absurd hl (by simp)
    | some v =>
      rw [hfa] at hl
      cases hrest : optMapM f _ with
      | none => rw [hrest] at hl; exact absurd hl (by simp)
      | some vs =>
        rw [hrest] at hl
        cases hl
        exact (ih hs hrest).cons v
  | cons₂ a _hsl ih =>
    intro rs r hs hl
    unfold optMapM at hs hl
    cases hfa : f a with
    | none => rw [hfa] at hs; exact absurd hs (by simp)
    | some v =>
      rw [hfa] at hs hl
      cases hs' : optMapM f _ with
      | none => rw [hs'] at hs; exact absurd hs (by simp)
      | some vs =>
        rw [hs'] at hs
        cases hl' : optMapM f _ with
        | none => rw [hl'] at hl; exact absurd hl (by simp)
        | some vl =>
          rw [hl'] at hl
          cases hs; cases hl
          exact (ih hs' hl').cons₂ v


theorem filter_dropTrailingTerminator (toks : List PyStr) :
    (dropTrailingTerminator toks).filter (fun t => ¬ t = strLit "0")
      = toks.filter (fun t => ¬ t = strLit "0") := by
  unfold dropTrailingTerminator
  split
  · rename_i hlast
    conv_rhs => rw [← List.dropLast_append_getLast? _ hlast]
    rw [List.filter_append]
    simp
  · rfl


/-- Claim C9: when the tokens of a CNF data line are parsed into a clause
(`parseClauseLiterals`, used by `parse_dimacs` for every data line), a
trailing `"0"` terminator contributes nothing — appending it leaves the
parsed clause unchanged — and the literals of the clause are a subsequence
of the integers of the tokens of the line with the terminator removed. -/
theorem c9_trailing_zero_dropped (toks : List PyStr) (lits : List Int)
    (h : parseClauseLiterals toks = some lits) :
    parseClauseLiterals (toks ++ [strLit "0"]) = some lits
    ∧ ∃ full, optMapM pyInt? (dropTrailingTerminator toks) = some full
        ∧ lits.Sublist full := by
  constructor
  · rw [← h]
    unfold parseClauseLiterals
    rw [List.filter_append]
    simp
  · have hzero : (pyInt? (strLit "0")).isSome := by decide
    have hmem : ∀ x ∈ dropTrailingTerminator toks, (pyInt? x).isSome := by
      intro x hx
      by_cases hx0 : x = strLit "0"
      · rw [hx0]; exact hzero
      · refine optMapM_mem pyInt? h x ?_
        refine List.mem_filter.mpr ⟨?_, by simpa using hx0⟩
        unfold dropTrailingTerminator at hx
        split at hx
        · exact List.dropLast_sublist _ |>.mem hx
        · exact hx
    obtain ⟨full, hfull⟩ := optMapM_isSome pyInt? _ hmem
    refine ⟨full, hfull, ?_⟩
    have hsub : ((dropTrailingTerminator toks).filter (fun t => ¬ t = strLit "0")).Sublist
        (dropTrailingTerminator toks) := List.filter_sublist _
    have h' : parseClauseLiterals (dropTrailingTerminator toks) = some lits := by
      unfold parseClauseLiterals
      rw [filter_dropTrailingTerminator]
      exact h
    exact optMapM_sublist pyInt? hsub h' hfull


/-- Witness for C9 on the tokens of the data line `1 -2 0`. -/
theorem c9_trailing_zero_dropped_witness :
    parseClauseLiterals [strLit "1", strLit "-2"] = some [1, -2]
    ∧ (parseClauseLiterals ([strLit "1", strLit "-2"] ++ [strLit "0"]) = some [1, -2]
       ∧ ∃ full, optMapM pyInt? (dropTrailingTerminator [strLit "1", strLit "-2"]) = some full
           ∧ List.Sublist [1, -2] full) :=
  ⟨by decide, c9_trailing_zero_dropped [strLit "1", strLit "-2"] [1, -2] (by decide)⟩


-- ### Claims C5 and C6: generated code

theorem trueAssignLine_eq (a b : Int) :
    trueAssignLine a b
      = strLit "bEdge[" ++ (intRepr a ++ (']' :: '[' ::
          (intRepr b ++ (']' :: strLit " = true;")))) := by
  unfold trueAssignLine
  rw [show (strLit "][" : PyStr) = ']' :: '[' :: [] from rfl,
      show (strLit "] = true;" : PyStr) = ']' :: strLit " = true;" from rfl]
  simp


theorem trueAssignLine_inj {a b x y : Int} (h : trueAssignLine a b = trueAssignLine x y) :
    a = x ∧ b = y := by
  rw [trueAssignLine_eq, trueAssignLine_eq] at h
  have h1 := List.append_cancel_left h
  obtain ⟨ha, hu⟩ := append_sep_inj ']' _ _ _ _
    (sep_not_mem_intRepr a (by decide)) (sep_not_mem_intRepr x (by decide)) h1
  rw [List.cons.injEq] at hu
  obtain ⟨hb, -⟩ := append_sep_inj ']' _ _ _ _
    (sep_not_mem_intRepr b (by decide)) (sep_not_mem_intRepr y (by decide)) hu.2
  exact ⟨intRepr_inj ha, intRepr_inj hb⟩


theorem trueAssignLine_headq (a b : Int) : (trueAssignLine a b).head? = some 'b' := by
  rw [trueAssignLine_eq]; rfl


theorem trueAssignLine_ne_nil (a b : Int) : trueAssignLine a b ≠ [] := by
  intro h
  have hh := trueAssignLine_headq a b
  rw [h] at hh
  exact Option.noConfusion hh


theorem cqPreamble_no_trueAssign (nv a b : Int) : trueAssignLine a b ∉ cqPreamble nv := by
  intro hmem
  have hh := trueAssignLine_headq a b
  simp only [cqPreamble, List.mem_cons, List.not_mem_nil, or_false] at hmem
  rcases hmem with h|h|h|h|h|h|h|h|h|h <;> rw [h] at hh
  · rw [show ((strLit "nN = " ++ intRepr nv ++ strLit ";" : PyStr)).head? = some 'n' from rfl]
      at hh
    exact absurd hh (by decide)
  all_goals exact absurd hh (by decide)


theorem count_map_trueAssign (l : List (Int × Int)) (a b : Int) :
    (l.map (fun p => trueAssignLine p.1 p.2)).count (trueAssignLine a b) = l.count (a, b) := by
  induction l with
  | nil => rfl
  | cons p l ih =>
    rw [List.map_cons, List.count_cons, List.count_cons, ih]
    congr 1
    by_cases h : ((a, b) : Int × Int) = p
    · subst h
      simp
    · have hne : trueAssignLine a b ≠ trueAssignLine p.1 p.2 := fun he => h (by
        obtain ⟨h1, h2⟩ := trueAssignLine_inj he
        cases p
        simp_all)
      rw [beq_eq_false_iff_ne.mpr (Ne.symm hne), beq_eq_false_iff_ne.mpr (Ne.symm h)]


theorem mem_cqPairs (edges : List (Int × Int)) (p : Int × Int) :
    p ∈ cqPairs edges
      ↔ ∃ e ∈ edges, p = (e.1 - 1, e.2 - 1) ∨ p = (e.2 - 1, e.1 - 1) := by
  induction edges with
  | nil => simp [cqPairs]
  | cons e es ih =>
    show p ∈ (e.1 - 1, e.2 - 1) :: (e.2 - 1, e.1 - 1) :: cqPairs es ↔ _
    simp only [List.mem_cons, ih]
    constructor
    · rintro (h | h | ⟨e', he', h⟩)
      · exact ⟨e, by simp, Or.inl h⟩
      · exact ⟨e, by simp, Or.inr h⟩
      · exact ⟨e', by simp [he'], h⟩
    · rintro ⟨e', he', h⟩
      rcases he' with rfl | he''
      · tauto
      · exact Or.inr (Or.inr ⟨e', he'', h⟩)


/-- Claim C5: the program generated for a parsed graph instance starts
with the `nN` size declaration, contains the loop statement
initializing every adjacency entry to `false`, and — provided the
user-supplied template contributes no `bEdge[_][_] = true;` line of its
own — the emitted true-assignment lines are exactly (with
multiplicity) `bEdge[u-1][v-1] = true;` and `bEdge[v-1][u-1] = true;`
for the parsed edges `(u,v)`, in order; executing those assignments on
the all-false matrix makes exactly the 0-indexed symmetric edge entries
true. -/
theorem c5_graph_edge_symmetry (nv : Int) (edges : List (Int × Int)) (tmpl : List PyStr)
    (ht : ∀ l ∈ tmpl, ∀ a b : Int, l ≠ trueAssignLine a b) :
    (cqGenerateLines nv edges tmpl).head? = some (strLit "nN = " ++ intRepr nv ++ strLit ";")
    ∧ strLit "        bEdge[i][j] = false;" ∈ cqGenerateLines nv edges tmpl
    ∧ (∀ a b : Int, (cqGenerateLines nv edges tmpl).count (trueAssignLine a b)
        = (cqPairs edges).count (a, b))
    ∧ (∀ i j : Int, runTrueAssigns (cqPairs edges) (fun _ => false) (i, j) = true
        ↔ ∃ e ∈ edges, (i, j) = (e.1 - 1, e.2 - 1) ∨ (i, j) = (e.2 - 1, e.1 - 1)) := by
  refine ⟨rfl, by simp [cqGenerateLines, cqPreamble], ?_, ?_⟩
  · intro a b
    simp only [cqGenerateLines, List.count_append]
    rw [List.count_eq_zero.mpr (cqPreamble_no_trueAssign nv a b),
        List.count_eq_zero.mpr (show trueAssignLine a b ∉ ([[]] : List PyStr) by
          simp only [List.mem_singleton]
          exact trueAssignLine_ne_nil a b),
        List.count_eq_zero.mpr (show trueAssignLine a b ∉ tmpl from
          fun hm => ht _ hm a b rfl)]
    simpa [cqAssignLines] using count_map_trueAssign (cqPairs edges) a b
  · intro i j
    rw [runTrueAssigns_true_iff]
    simp only [Bool.false_eq_true, or_false]
    exact mem_cqPairs edges (i, j)


/-- Witness for C5 on the example from the spec: 3 vertices, edges
`(1,2),(2,3)`, empty template — exactly 4 true-assignments, at index
pairs `(0,1),(1,0),(1,2),(2,1)`. -/
theorem c5_graph_edge_symmetry_witness :
    (∀ l ∈ ([[]] : List PyStr), ∀ a b : Int, l ≠ trueAssignLine a b)
    ∧ ((cqGenerateLines 3 [(1, 2), (2, 3)] [[]]).head?
          = some (strLit "nN = " ++ intRepr 3 ++ strLit ";")
        ∧ strLit "        bEdge[i][j] = false;" ∈ cqGenerateLines 3 [(1, 2), (2, 3)] [[]]
        ∧ (∀ a b : Int, (cqGenerateLines 3 [(1, 2), (2, 3)] [[]]).count (trueAssignLine a b)
            = (cqPairs [(1, 2), (2, 3)]).count (a, b))
        ∧ (∀ i j : Int,
            runTrueAssigns (cqPairs [(1, 2), (2, 3)]) (fun _ => false) (i, j) = true
              ↔ ∃ e ∈ [((1 : Int), (2 : Int)), (2, 3)],
                  (i, j) = (e.1 - 1, e.2 - 1) ∨ (i, j) = (e.2 - 1, e.1 - 1)))
    ∧ cqPairs [(1, 2), (2, 3)] = [(0, 1), (1, 0), (1, 2), (2, 1)]
    ∧ (cqGenerateLines 3 [(1, 2), (2, 3)] [[]]).count (trueAssignLine 0 1) = 1
    ∧ (cqGenerateLines 3 [(1, 2), (2, 3)] [[]]).count (trueAssignLine 0 2) = 0 := by
  have hht : ∀ l ∈ ([[]] : List PyStr), ∀ a b : Int, l ≠ trueAssignLine a b := by
    intro l hl a b
    simp only [List.mem_singleton] at hl
    subst hl
    exact fun h => trueAssignLine_ne_nil a b h.symm
  exact ⟨hht, c5_graph_edge_symmetry 3 [(1, 2), (2, 3)] [[]] hht, by decide, by decide,
    by decide⟩


theorem bcLine_eq (c : Nat) (s : Int) :
    bcLine c s
      = strLit "bC[" ++ (natRepr c ++ (']' :: '[' ::
          (intRepr s ++ (']' :: strLit " = true;")))) := by
  unfold bcLine
  rw [show (strLit "][" : PyStr) = ']' :: '[' :: [] from rfl,
      show (strLit "] = true;" : PyStr) = ']' :: strLit " = true;" from rfl]
  simp


theorem bcLine_inj {c c' : Nat} {s s' : Int} (h : bcLine c s = bcLine c' s') :
    c = c' ∧ s = s' := by
  rw [bcLine_eq, bcLine_eq] at h
  have h1 := List.append_cancel_left h
  obtain ⟨hc, hu⟩ := append_sep_inj ']' _ _ _ _
    (sep_not_mem_natRepr c (by decide)) (sep_not_mem_natRepr c' (by decide)) h1
  rw [List.cons.injEq] at hu
  obtain ⟨hs, -⟩ := append_sep_inj ']' _ _ _ _
    (sep_not_mem_intRepr s (by decide)) (sep_not_mem_intRepr s' (by decide)) hu.2
  exact ⟨natRepr_inj hc, intRepr_inj hs⟩


theorem bcLine_headq (c : Nat) (s : Int) : (bcLine c s).head? = some 'b' := by
  rw [bcLine_eq]; rfl


theorem bcLine_ne_nil (c : Nat) (s : Int) : bcLine c s ≠ [] := by
  intro h
  have hh := bcLine_headq c s
  rw [h] at hh
  exact Option.noConfusion hh


theorem satPreamble_no_bcLine (nv nc : Int) (c : Nat) (s : Int) :
    bcLine c s ∉ satPreamble nv nc := by
  intro hmem
  have hh := bcLine_headq c s
  simp only [satPreamble, List.mem_cons, List.not_mem_nil, or_false] at hmem
  rcases hmem with h|h|h|h|h|h|h|h|h <;> rw [h] at hh
  · rw [show ((strLit "nN = " ++ intRepr nv ++ strLit ";" : PyStr)).head? = some 'n' from rfl]
      at hh
    exact absurd hh (by decide)
  · rw [show ((strLit "nClauses = " ++ intRepr nc ++ strLit ";" : PyStr)).head? = some 'n'
        from rfl] at hh
    exact absurd hh (by decide)
  all_goals exact absurd hh (by decide)


theorem count_map_bcLine (l : List (Nat × Int)) (c : Nat) (s : Int) :
    (l.map (fun q => bcLine q.1 q.2)).count (bcLine c s) = l.count (c, s) := by
  induction l with
  | nil => rfl
  | cons q l ih =>
    rw [List.map_cons, List.count_cons, List.count_cons, ih]
    congr 1
    by_cases h : ((c, s) : Nat × Int) = q
    · subst h
      simp
    · have hne : bcLine c s ≠ bcLine q.1 q.2 := fun he => h (by
        obtain ⟨h1, h2⟩ := bcLine_inj he
        cases q
        simp_all)
      rw [beq_eq_false_iff_ne.mpr (Ne.symm hne), beq_eq_false_iff_ne.mpr (Ne.symm h)]


theorem satSlots_eq_flatMap (clauses : List (List Int)) :
    satSlots clauses
      = (clauses.enum).flatMap (fun p => p.2.map (fun lit => (p.1, slotOfLit lit))) := by
  unfold satSlots
  generalize clauses.enum = l
  induction l with
  | nil => rfl
  | cons p l ih => simp [ih]


theorem mem_satSlots (clauses : List (List Int)) (c : Nat) (s : Int) :
    (c, s) ∈ satSlots clauses
      ↔ ∃ cl, clauses[c]? = some cl ∧ ∃ lit ∈ cl, s = slotOfLit lit := by
  rw [satSlots_eq_flatMap, List.mem_flatMap]
  constructor
  · rintro ⟨p, hp, hmem⟩
    rw [List.mem_map] at hmem
    obtain ⟨lit, hlit, heq⟩ := hmem
    have h1 : p.1 = c := congrArg Prod.fst heq
    have h2 : slotOfLit lit = s := congrArg Prod.snd heq
    have hg := List.mem_enum_iff_getElem?.mp hp
    exact ⟨p.2, by rw [← h1]; exact hg, lit, hlit, h2.symm⟩
  · rintro ⟨cl, hcl, lit, hlit, rfl⟩
    exact ⟨(c, cl), List.mem_enum_iff_getElem?.mpr hcl,
      List.mem_map.mpr ⟨lit, hlit, rfl⟩⟩


/-- Claim C6: the program generated for a parsed CNF instance starts
with the `nN` declaration, contains the `nClauses` declaration and the
loop statement initializing every clause/polarity slot to `false`, and —
provided the template contributes no `bC[_][_] = true;` line — the
emitted true-assignment lines are exactly (with multiplicity)
`bC[clauseIdx][2*(v-1)] = true;` for a positive literal `v` and
`bC[clauseIdx][2*(|v|-1)+1] = true;` for a negative one, per literal
occurrence in input order; executing them on the all-false store sets
exactly those slots of the clause rows. -/
theorem c6_cnf_polarity_slots (nv nc : Int) (clauses : List (List Int)) (tmpl : List PyStr)
    (ht : ∀ l ∈ tmpl, ∀ (c : Nat) (s : Int), l ≠ bcLine c s) :
    (satGenerateLines nv nc clauses tmpl).head?
        = some (strLit "nN = " ++ intRepr nv ++ strLit ";")
    ∧ (strLit "nClauses = " ++ intRepr nc ++ strLit ";") ∈ satGenerateLines nv nc clauses tmpl
    ∧ strLit "        bC[ni][nj] = false;" ∈ satGenerateLines nv nc clauses tmpl
    ∧ (∀ (c : Nat) (s : Int), (satGenerateLines nv nc clauses tmpl).count (bcLine c s)
        = (satSlots clauses).count (c, s))
    ∧ (∀ (c : Nat) (s : Int),
        runTrueAssigns (satSlots clauses) (fun _ => false) (c, s) = true
          ↔ ∃ cl, clauses[c]? = some cl ∧ ∃ lit ∈ cl, s = slotOfLit lit) := by
  refine ⟨rfl, by simp [satGenerateLines, satPreamble],
    by simp [satGenerateLines, satPreamble], ?_, ?_⟩
  · intro c s
    simp only [satGenerateLines, List.count_append]
    rw [List.count_eq_zero.mpr (satPreamble_no_bcLine nv nc c s),
        List.count_eq_zero.mpr (show bcLine c s ∉ ([[]] : List PyStr) by
          simp only [List.mem_singleton]
          exact bcLine_ne_nil c s),
        List.count_eq_zero.mpr (show bcLine c s ∉ tmpl from fun hm => ht _ hm c s rfl)]
    simpa [satAssignLines] using count_map_bcLine (satSlots clauses) c s
  · intro c s
    rw [runTrueAssigns_true_iff]
    simp only [Bool.false_eq_true, or_false]
    exact mem_satSlots clauses c s


/-- Witness for C6 on the example from the spec, `p cnf 2 1` with clause
`1 -2 0`: slots `[0][0]` and `[0][3]` are set, slots `[0][1]` and
`[0][2]` stay false. -/
theorem c6_cnf_polarity_slots_witness :
    parse_dimacs (strLit "p cnf 2 1\n1 -2 0") = Except.ok ⟨2, 1, [[1, -2]]⟩
    ∧ (∀ l ∈ ([[]] : List PyStr), ∀ (c : Nat) (s : Int), l ≠ bcLine c s)
    ∧ ((satGenerateLines 2 1 [[1, -2]] [[]]).head?
          = some (strLit "nN = " ++ intRepr 2 ++ strLit ";")
        ∧ (strLit "nClauses = " ++ intRepr 1 ++ strLit ";")
            ∈ satGenerateLines 2 1 [[1, -2]] [[]]
        ∧ strLit "        bC[ni][nj] = false;" ∈ satGenerateLines 2 1 [[1, -2]] [[]]
        ∧ (∀ (c : Nat) (s : Int), (satGenerateLines 2 1 [[1, -2]] [[]]).count (bcLine c s)
            = (satSlots [[1, -2]]).count (c, s))
        ∧ (∀ (c : Nat) (s : Int),
            runTrueAssigns (satSlots [[1, -2]]) (fun _ => false) (c, s) = true
              ↔ ∃ cl, [[(1 : Int), -2]][c]? = some cl ∧ ∃ lit ∈ cl, s = slotOfLit lit))
    ∧ satSlots [[1, -2]] = [(0, 0), (0, 3)]
    ∧ runTrueAssigns (satSlots [[1, -2]]) (fun _ => false) (0, 0) = true
    ∧ runTrueAssigns (satSlots [[1, -2]]) (fun _ => false) (0, 1) = false
    ∧ runTrueAssigns (satSlots [[1, -2]]) (fun _ => false) (0, 2) = false
    ∧ runTrueAssigns (satSlots [[1, -2]]) (fun _ => false) (0, 3) = true := by
  have hht : ∀ l ∈ ([[]] : List PyStr), ∀ (c : Nat) (s : Int), l ≠ bcLine c s := by
    intro l hl c s
    simp only [List.mem_singleton] at hl
    subst hl
    exact fun h => bcLine_ne_nil c s h.symm
  exact ⟨rfl, hht, c6_cnf_polarity_slots 2 1 [[1, -2]] [[]] hht, by decide, by decide,
    by decide, by decide, by decide⟩


-- ### Claim C10: clique statistics collapse unrecognized statuses

theorem cqBumpUrsa_error (s : CqSolver) (status : PyStr)
    (h1 : pyLower status ≠ strLit "found") (h2 : pyLower status ≠ strLit "not_found")
    (h3 : pyLower status ≠ strLit "timeout") :
    cqBumpUrsa s status = { s with errorCnt := s.errorCnt + 1 } := by
  unfold cqBumpUrsa
  rw [if_neg h1, if_neg h2, if_neg h3]


theorem cqBumpCliquer_error (s : CqSolver) (status : PyStr)
    (h1 : pyLower status ≠ strLit "found") (h2 : pyLower status ≠ strLit "timeout") :
    cqBumpCliquer s status = { s with errorCnt := s.errorCnt + 1 } := by
  unfold cqBumpCliquer
  rw [if_neg h1, if_neg h2]


/-- Claim C10: in the statistics accumulation of the clique driver, a URSA
(or Reduction) status outside {FOUND, NOT_FOUND, TIMEOUT} — UNKNOWN in
particular — increments the `error` counter of that solver, and a Cliquer
status outside {FOUND, TIMEOUT} — NOT_FOUND included — increments
the `error` counter of Cliquer (its `notFound` field is never touched);
moreover the written `FINAL STATISTICS` section has exactly one
`Not found:` line per URSA-style solver (URSA, and Reduction when
present — none for Cliquer) and no line mentioning `UNKNOWN`. -/
theorem c10_clique_stats_collapse (stats : CqStats) (us cs rs ts : PyStr) (hasRed : Bool)
    (hu1 : pyLower us ≠ strLit "found") (hu2 : pyLower us ≠ strLit "not_found")
    (hu3 : pyLower us ≠ strLit "timeout")
    (hc1 : pyLower cs ≠ strLit "found") (hc2 : pyLower cs ≠ strLit "timeout")
    (hts : ∀ c ∈ ts, c ∉ strLit "UNKNOWN") :
    (cqUpdateStats stats us cs rs hasRed).total = stats.total + 1
    ∧ (cqUpdateStats stats us cs rs hasRed).ursa
        = { stats.ursa with errorCnt := stats.ursa.errorCnt + 1 }
    ∧ (cqUpdateStats stats us cs rs hasRed).cliquer
        = { stats.cliquer with errorCnt := stats.cliquer.errorCnt + 1 }
    ∧ (hasRed = true → pyLower rs ≠ strLit "found" → pyLower rs ≠ strLit "not_found" →
        pyLower rs ≠ strLit "timeout" →
        (cqUpdateStats stats us cs rs hasRed).reduction
          = { stats.reduction with errorCnt := stats.reduction.errorCnt + 1 })
    ∧ (cqStatLines stats hasRed ts).countP
        (fun l => (strLit "Not found:").isPrefixOf l) = (if hasRed then 2 else 1)
    ∧ (∀ l ∈ cqStatLines stats hasRed ts, pyIn (strLit "UNKNOWN") l = false) := by
  refine ⟨rfl, cqBumpUrsa_error _ _ hu1 hu2 hu3, cqBumpCliquer_error _ _ hc1 hc2,
    ?_, ?_, ?_⟩
  · intro hred h1 h2 h3
    show (if hasRed then _ else _) = _
    rw [hred]
    simpa using cqBumpUrsa_error stats.reduction rs h1 h2 h3
  · cases hasRed <;> rfl
  · have hnd : ∀ c ∈ negDigitChars, c ∉ strLit "UNKNOWN" := by decide
    have hnum : ∀ (lab : PyStr) (k : Int), pyIn (strLit "UNKNOWN") lab = false →
        pyIn (strLit "UNKNOWN") (lab ++ intRepr k) = false := by
      intro lab k h
      rw [pyIn_append_excl _ lab (intRepr k) (fun c hc => hnd c (intRepr_mem k c hc))]
      exact h
    intro l hl
    cases hasRed <;>
      simp only [cqStatLines, if_true, if_false, List.cons_append, List.nil_append,
        List.mem_cons, List.not_mem_nil, or_false, Bool.false_eq_true] at hl <;>
      rcases hl with rfl|rfl|rfl|rfl|rfl|rfl|rfl|rfl|rfl|rfl|rfl|rfl|rfl|rfl|rfl|hl <;>
      first
        | decide
        | (apply hnum; decide)
        | skip
    · rcases hl with rfl | rfl
      · apply hnum; decide
      · rw [pyIn_append_excl _ _ ts hts]; decide
    · rcases hl with rfl|rfl|rfl|rfl|rfl|rfl|rfl|rfl
      all_goals
        first
          | decide
          | (apply hnum; decide)
          | (rw [pyIn_append_excl _ _ ts hts]; decide)


/-- Witness for C10: URSA status `UNKNOWN` and Cliquer status
`NOT_FOUND` both land in the `error` bucket. -/
theorem c10_clique_stats_collapse_witness :
    (pyLower (strLit "UNKNOWN") ≠ strLit "found"
      ∧ pyLower (strLit "UNKNOWN") ≠ strLit "not_found"
      ∧ pyLower (strLit "UNKNOWN") ≠ strLit "timeout"
      ∧ pyLower (strLit "NOT_FOUND") ≠ strLit "found"
      ∧ pyLower (strLit "NOT_FOUND") ≠ strLit "timeout"
      ∧ (∀ c ∈ strLit "t", c ∉ strLit "UNKNOWN"))
    ∧ ((cqUpdateStats cqEmptyStats (strLit "UNKNOWN") (strLit "NOT_FOUND") (strLit "UNKNOWN")
          false).total = cqEmptyStats.total + 1
        ∧ (cqUpdateStats cqEmptyStats (strLit "UNKNOWN") (strLit "NOT_FOUND") (strLit "UNKNOWN")
            false).ursa = { cqEmptyStats.ursa with errorCnt := cqEmptyStats.ursa.errorCnt + 1 }
        ∧ (cqUpdateStats cqEmptyStats (strLit "UNKNOWN") (strLit "NOT_FOUND") (strLit "UNKNOWN")
            false).cliquer
              = { cqEmptyStats.cliquer with errorCnt := cqEmptyStats.cliquer.errorCnt + 1 }
        ∧ (false = true → pyLower (strLit "UNKNOWN") ≠ strLit "found" →
            pyLower (strLit "UNKNOWN") ≠ strLit "not_found" →
            pyLower (strLit "UNKNOWN") ≠ strLit "timeout" →
            (cqUpdateStats cqEmptyStats (strLit "UNKNOWN") (strLit "NOT_FOUND")
              (strLit "UNKNOWN") false).reduction
                = { cqEmptyStats.reduction with
                      errorCnt := cqEmptyStats.reduction.errorCnt + 1 })
        ∧ (cqStatLines cqEmptyStats false (strLit "t")).countP
            (fun l => (strLit "Not found:").isPrefixOf l) = (if false then 2 else 1)
        ∧ (∀ l ∈ cqStatLines cqEmptyStats false (strLit "t"),
            pyIn (strLit "UNKNOWN") l = false)) :=
  ⟨⟨by decide, by decide, by decide, by decide, by decide, by decide⟩,
   c10_clique_stats_collapse cqEmptyStats (strLit "UNKNOWN") (strLit "NOT_FOUND")
     (strLit "UNKNOWN") (strLit "t") false (by decide) (by decide) (by decide) (by decide)
     (by decide) (by decide)⟩
